import Mathlib

/-!
Verification of the kansha-mg data-access layer (MySQL repositories for
users, notes, folders).

The repositories are shallowly embedded: a table is a `List` of row
structures mirroring the persisted schema (booleans stored as TINYINT 0/1
become `Bool`, nullable columns become `Option`), and each repository
method becomes a pure function from the table (plus the method's
arguments and the current clock value `now`) to the resulting table.
JavaScript truthiness coercions (`x || d`) are modelled explicitly.
Store-level failures of a single upsert inside the bulk-sync engine are
modelled by a failure oracle on the batch items.
-/

/-- JS `x || d` for an optional string: `undefined` and the empty string
are falsy and yield the default. -/
def jsOr (x : Option String) (d : String) : String :=
  match x with
  | none => d
  | some s => if s = "" then d else s

/-- JS `x || null` for an optional string: `undefined` and the empty
string collapse to SQL NULL. -/
def jsOrNull (x : Option String) : Option String :=
  match x with
  | none => none
  | some s => if s = "" then none else some s

/-- JS `x || d` for an optional number: `undefined` and `0` are falsy. -/
def natOr (x : Option Nat) (d : Nat) : Nat :=
  match x with
  | none => d
  | some n => if n = 0 then d else n

/-- JS `x || null` for a `string | null | undefined` value (used for the
three-state nullable foreign keys such as `folderId`): `undefined`,
`null` and the empty string all collapse to SQL NULL. -/
def jsFlatOrNull (x : Option (Option String)) : Option String :=
  match x with
  | none => none
  | some none => none
  | some (some s) => if s = "" then none else some s

/-! ## Note entity (src/src/domain/models/Note.ts, notes table) -/

/-- An entry of the append-only `versions` JSON log of a note. -/
structure NoteVersion where
  id : String
  title : String
  content : String
  savedAt : String
deriving Repr, DecidableEq

/-- An entry of the append-only `comments` JSON log of a note. -/
structure Comment where
  id : String
  author : String
  content : String
  createdAt : String
deriving Repr, DecidableEq

/-- A stored row of the `notes` table.  TINYINT(1) columns are `Bool`,
nullable columns are `Option`, JSON array columns are lists of their
deserialized records. -/
structure NoteRow where
  id : String
  owner_id : String
  title : String
  content : String
  tags : List String
  pinned : Bool
  favorite : Bool
  folder_id : Option String
  visibility : String
  password : Option String
  share_url : Option String
  short_id : Option String
  expires_at : Option String
  views : Nat
  versions : List NoteVersion
  comments : List Comment
  created_at : String
  updated_at : String
  is_deleted : Bool
  deleted_at : Option String
  original_folder_id : Option String
  original_pinned : Option Bool
  original_favorite : Option Bool
deriving Repr, DecidableEq

/-- A `Partial<Note>` / `UpdateNoteDTO` value: every field optional
(`none` = the key is absent from the object).  The nullable fields
`folderId` and `originalFolderId` are three-state
(`some none` = explicit null).  `UpdateNoteDTO` is the restriction of
this type to the sixteen fields that `NoteRepository.update` reads. -/
structure NotePatch where
  title : Option String := none
  content : Option String := none
  tags : Option (List String) := none
  pinned : Option Bool := none
  favorite : Option Bool := none
  folderId : Option (Option String) := none
  visibility : Option String := none
  password : Option String := none
  shareUrl : Option String := none
  shortId : Option String := none
  expiresAt : Option String := none
  views : Option Nat := none
  versions : Option (List NoteVersion) := none
  comments : Option (List Comment) := none
  createdAt : Option String := none
  updatedAt : Option String := none
  isDeleted : Option Bool := none
  deletedAt : Option String := none
  originalFolderId : Option (Option String) := none
  originalPinned : Option Bool := none
  originalFavorite : Option Bool := none
deriving Repr, DecidableEq

namespace NoteRepository

/-- `SELECT * FROM notes WHERE id = ? LIMIT 1` (NoteRepository.findById). -/
def findById (db : List NoteRow) (id : String) : Option NoteRow :=
  db.find? (fun r => r.id == id)

/-- Whether the `UPDATE` built by `NoteRepository.update` has at least one
column assignment, i.e. whether any of the sixteen `UpdateNoteDTO` fields
is present (`updates.length === 0` check in the source). -/
def updateHasFields (d : NotePatch) : Bool :=
  d.title.isSome || d.content.isSome || d.tags.isSome || d.pinned.isSome ||
  d.favorite.isSome || d.folderId.isSome || d.visibility.isSome ||
  d.password.isSome || d.shareUrl.isSome || d.shortId.isSome ||
  d.expiresAt.isSome || d.isDeleted.isSome || d.deletedAt.isSome ||
  d.originalFolderId.isSome || d.originalPinned.isSome ||
  d.originalFavorite.isSome

/-- Effect of the `UPDATE notes SET ... WHERE id = ?` built by
`NoteRepository.update` on one row: every present DTO field overwrites
its column, every absent field leaves the column alone, and
`updated_at = ?` (the current time) is always appended. -/
def applyUpdate (d : NotePatch) (now : String) (r : NoteRow) : NoteRow :=
  { r with
    title := d.title.getD r.title
    content := d.content.getD r.content
    tags := d.tags.getD r.tags
    pinned := d.pinned.getD r.pinned
    favorite := d.favorite.getD r.favorite
    folder_id := match d.folderId with | some v => v | none => r.folder_id
    visibility := d.visibility.getD r.visibility
    password := match d.password with | some v => some v | none => r.password
    share_url := match d.shareUrl with | some v => some v | none => r.share_url
    short_id := match d.shortId with | some v => some v | none => r.short_id
    expires_at := match d.expiresAt with | some v => some v | none => r.expires_at
    is_deleted := d.isDeleted.getD r.is_deleted
    deleted_at := match d.deletedAt with | some v => some v | none => r.deleted_at
    original_folder_id :=
      match d.originalFolderId with | some v => v | none => r.original_folder_id
    original_pinned :=
      match d.originalPinned with | some v => some v | none => r.original_pinned
    original_favorite :=
      match d.originalFavorite with | some v => some v | none => r.original_favorite
    updated_at := now }

/-- `NoteRepository.update`: if no DTO field is present the method
short-circuits to a plain read and issues no `UPDATE`; otherwise the
assembled `UPDATE ... WHERE id = ?` rewrites the matching row. -/
def update (db : List NoteRow) (id : String) (d : NotePatch) (now : String) :
    List NoteRow :=
  if updateHasFields d then
    db.map (fun r => if r.id == id then applyUpdate d now r else r)
  else
    db

/-- The row inserted by the absent branch of `NoteRepository.upsert`:
supplied fields with the documented JS-falsy defaults for every omitted
field. -/
def upsertInsertRow (id ownerId : String) (d : NotePatch) (now : String) :
    NoteRow where
  id := id
  owner_id := ownerId
  title := jsOr d.title ""
  content := jsOr d.content ""
  tags := d.tags.getD []
  pinned := d.pinned.getD false
  favorite := d.favorite.getD false
  folder_id := jsFlatOrNull d.folderId
  visibility := jsOr d.visibility "private"
  password := jsOrNull d.password
  share_url := jsOrNull d.shareUrl
  short_id := jsOrNull d.shortId
  expires_at := jsOrNull d.expiresAt
  views := d.views.getD 0
  versions := d.versions.getD []
  comments := d.comments.getD []
  created_at := jsOr d.createdAt now
  updated_at := jsOr d.updatedAt now
  is_deleted := d.isDeleted.getD false
  deleted_at := jsOrNull d.deletedAt
  original_folder_id := jsFlatOrNull d.originalFolderId
  original_pinned := d.originalPinned
  original_favorite := d.originalFavorite

/-- `NoteRepository.upsert`: existence check
`SELECT id FROM notes WHERE id = ? AND owner_id = ?`, then either
`update(id, data)` or a full `INSERT` with defaults.  This is the
success-path semantics; a store failure (e.g. a duplicate primary key
under another owner) surfaces as a rejected promise and is modelled by
the bulk engine's failure oracle. -/
def upsert (db : List NoteRow) (id ownerId : String) (d : NotePatch)
    (now : String) : List NoteRow :=
  if db.any (fun r => r.id == id && r.owner_id == ownerId) then
    update db id d now
  else
    db ++ [upsertInsertRow id ownerId d now]

/-- Effect of the trash `UPDATE` of `NoteRepository.softDelete` on one
row.  The MySQL `SET` list assigns the shadow columns from the live
columns before clearing the live columns, so the simultaneous record
update below is exactly the statement's effect. -/
def applySoftDelete (now : String) (r : NoteRow) : NoteRow :=
  { r with
    is_deleted := true
    deleted_at := some now
    original_folder_id := r.folder_id
    original_pinned := some r.pinned
    original_favorite := some r.favorite
    folder_id := none
    pinned := false
    favorite := false
    updated_at := now }

/-- `NoteRepository.softDelete`: reads the note, silently returns when it
is missing or not owned by the caller, and otherwise applies the trash
`UPDATE ... WHERE id = ? AND owner_id = ?` (regardless of the note's
current deleted state). -/
def softDelete (db : List NoteRow) (id ownerId now : String) : List NoteRow :=
  match findById db id with
  | none => db
  | some note =>
    if note.owner_id ≠ ownerId then db
    else
      db.map (fun r =>
        if r.id == id && r.owner_id == ownerId then applySoftDelete now r else r)

/-- Effect of the restore `UPDATE` of `NoteRepository.restore` on one
row: live placement columns are copied back from the shadow columns
(booleans via `COALESCE(..., 0)`), then the shadow columns are cleared.
The `SET` list reads each shadow column before nulling it, so the
simultaneous record update is exactly the statement's effect. -/
def applyRestore (now : String) (r : NoteRow) : NoteRow :=
  { r with
    is_deleted := false
    deleted_at := none
    folder_id := r.original_folder_id
    pinned := r.original_pinned.getD false
    favorite := r.original_favorite.getD false
    original_folder_id := none
    original_pinned := none
    original_favorite := none
    updated_at := now }

/-- `NoteRepository.restore`: applies the restore
`UPDATE ... WHERE id = ? AND owner_id = ?` without any prior read or
state check. -/
def restore (db : List NoteRow) (id ownerId now : String) : List NoteRow :=
  db.map (fun r =>
    if r.id == id && r.owner_id == ownerId then applyRestore now r else r)

end NoteRepository

/-- One element of a `bulkUpsert` batch for notes: a `Partial<Note>`
carrying a mandatory `id` and `ownerId`. -/
structure NoteSyncItem where
  id : String
  ownerId : String
  data : NotePatch
deriving Repr, DecidableEq

namespace NoteRepository

/-- `NoteRepository.bulkUpsert`: one `upsert` per array element collected
with `Promise.allSettled`; a rejected element is skipped (its cause only
logged) and the fulfilled elements are counted.  Store-level failure of
an element's upsert is modelled by the oracle `fails`; the concurrent
fan-out is modelled as the left-to-right interleaving. -/
def bulkUpsert (fails : NoteSyncItem → Bool) (db : List NoteRow)
    (items : List NoteSyncItem) (now : String) : List NoteRow × Nat :=
  items.foldl
    (fun acc i =>
      if fails i then acc
      else (upsert acc.1 i.id i.ownerId i.data now, acc.2 + 1))
    (db, 0)

end NoteRepository

/-! ## Folder entity (src/src/domain/models/Folder.ts, folders table) -/

/-- A stored row of the `folders` table (`updated_at` is a nullable
column in the schema). -/
structure FolderRow where
  id : String
  owner_id : String
  name : String
  color : String
  created_at : String
  updated_at : Option String
  is_deleted : Bool
  deleted_at : Option String
deriving Repr, DecidableEq

/-- A `Partial<Folder>` / `UpdateFolderDTO` value; `UpdateFolderDTO` is
the restriction to the four fields `FolderRepository.update` reads. -/
structure FolderPatch where
  name : Option String := none
  color : Option String := none
  createdAt : Option String := none
  updatedAt : Option String := none
  isDeleted : Option Bool := none
  deletedAt : Option String := none
deriving Repr, DecidableEq

namespace FolderRepository

/-- `SELECT * FROM folders WHERE id = ? LIMIT 1` (FolderRepository.findById). -/
def findById (db : List FolderRow) (id : String) : Option FolderRow :=
  db.find? (fun r => r.id == id)

/-- Whether the `UPDATE` built by `FolderRepository.update` has at least
one column assignment. -/
def updateHasFields (d : FolderPatch) : Bool :=
  d.name.isSome || d.color.isSome || d.isDeleted.isSome || d.deletedAt.isSome

/-- Effect of the `UPDATE folders SET ... WHERE id = ?` built by
`FolderRepository.update` on one row. -/
def applyUpdate (d : FolderPatch) (now : String) (r : FolderRow) : FolderRow :=
  { r with
    name := d.name.getD r.name
    color := d.color.getD r.color
    is_deleted := d.isDeleted.getD r.is_deleted
    deleted_at := match d.deletedAt with | some v => some v | none => r.deleted_at
    updated_at := some now }

/-- `FolderRepository.update`: plain read when no DTO field is present,
otherwise the assembled `UPDATE ... WHERE id = ?`. -/
def update (db : List FolderRow) (id : String) (d : FolderPatch)
    (now : String) : List FolderRow :=
  if updateHasFields d then
    db.map (fun r => if r.id == id then applyUpdate d now r else r)
  else
    db

/-- The row inserted by the absent branch of `FolderRepository.upsert`. -/
def upsertInsertRow (id ownerId : String) (d : FolderPatch) (now : String) :
    FolderRow where
  id := id
  owner_id := ownerId
  name := jsOr d.name ""
  color := jsOr d.color "#808080"
  created_at := jsOr d.createdAt now
  updated_at := some (jsOr d.updatedAt now)
  is_deleted := d.isDeleted.getD false
  deleted_at := jsOrNull d.deletedAt

/-- `FolderRepository.upsert`: existence check by `(id, owner_id)`, then
either `update(id, data)` or a full `INSERT` with defaults
(success-path semantics, as for notes). -/
def upsert (db : List FolderRow) (id ownerId : String) (d : FolderPatch)
    (now : String) : List FolderRow :=
  if db.any (fun r => r.id == id && r.owner_id == ownerId) then
    update db id d now
  else
    db ++ [upsertInsertRow id ownerId d now]

end FolderRepository

/-- One element of a `bulkUpsert` batch for folders: a `Partial<Folder>`
carrying a mandatory `id` and `ownerId`. -/
structure FolderSyncItem where
  id : String
  ownerId : String
  data : FolderPatch
deriving Repr, DecidableEq

namespace FolderRepository

/-- The sequential for-loop inside `FolderRepository.bulkUpsert`'s
`withTransaction` callback.  Each iteration awaits `upsert` (whose
statements run through the pool-level `query`/`execute` helpers on
autocommit connections, not on the transaction's dedicated connection)
and increments `count`.  A failing upsert throws: the loop stops, the
remaining items are never attempted, `withTransaction` rolls back a
transaction that covers none of the issued statements (so the already
applied items keep their effects) and re-raises, so the caller gets the
error instead of a count. -/
def bulkUpsertGo (fails : FolderSyncItem → Bool) (now : String) :
    List FolderRow → Nat → List FolderSyncItem → Except Unit Nat × List FolderRow
  | db, count, [] => (Except.ok count, db)
  | db, count, i :: rest =>
    if fails i then (Except.error (), db)
    else bulkUpsertGo fails now (upsert db i.id i.ownerId i.data now) (count + 1) rest

/-- `FolderRepository.bulkUpsert` (failure oracle `fails` as for notes):
returns either the success count or the propagated error, paired with
the resulting table state. -/
def bulkUpsert (fails : FolderSyncItem → Bool) (db : List FolderRow)
    (items : List FolderSyncItem) (now : String) :
    Except Unit Nat × List FolderRow :=
  bulkUpsertGo fails now db 0 items

end FolderRepository

/-! ## User entity (src/src/domain/models/User.ts, users table) -/

/-- JS `s.replace(forT, space)` for the first occurrence of the character
T, as used by `toMySQLDatetime`. -/
def replaceFirstT : List Char → List Char
  | [] => []
  | c :: rest => if c = 'T' then ' ' :: rest else c :: replaceFirstT rest

/-- JS `s.replace(reg, empty)` for the regular expression matching a
trailing dot, three digits and Z (the millisecond suffix of an ISO 8601
timestamp). -/
def stripMsZSuffix (cs : List Char) : List Char :=
  match cs.reverse with
  | 'Z' :: d3 :: d2 :: d1 :: '.' :: rest =>
    if d1.isDigit && d2.isDigit && d3.isDigit then rest.reverse else cs
  | _ => cs

/-- JS `s.replace(forZ, empty)` for the first occurrence of Z. -/
def removeFirstZ : List Char → List Char
  | [] => []
  | c :: rest => if c = 'Z' then rest else c :: removeFirstZ rest

/-- The string transformation applied by `toMySQLDatetime` to a nonempty
input: replace the first T by a space, strip a trailing millisecond
suffix, drop the first remaining Z. -/
def toSqlDt (s : String) : String :=
  String.mk (removeFirstZ (stripMsZSuffix (replaceFirstT s.data)))

/-- `toMySQLDatetime` (UserRepository module): a falsy input (absent or
empty string) maps to SQL NULL, anything else is converted from ISO 8601
to the MySQL datetime shape. -/
def toMySQLDatetime (x : Option String) : Option String :=
  match x with
  | none => none
  | some s => if s = "" then none else some (toSqlDt s)

/-- A stored row of the `users` table. -/
structure UserRow where
  id : String
  username : String
  email : String
  password_hash : String
  hash_algorithm : String
  name : String
  role : String
  permissions : List String
  suspended : Bool
  suspended_at : Option String
  suspended_reason : Option String
  last_login_at : Option String
  last_seen_at : Option String
  notes_updated_at : Option String
  created_at : String
  updated_at : String
deriving Repr, DecidableEq

/-- A `Partial<User>` / `UpdateUserDTO` value.  `UpdateUserDTO` is the
restriction to the seven fields `UserRepository.update` reads; `upsert`
reads the rest as well. -/
structure UserPatch where
  username : Option String := none
  email : Option String := none
  passwordHash : Option String := none
  hashAlgorithm : Option String := none
  name : Option String := none
  role : Option String := none
  permissions : Option (List String) := none
  suspended : Option Bool := none
  suspendedAt : Option String := none
  suspendedReason : Option String := none
  lastLoginAt : Option String := none
  lastSeenAt : Option String := none
  notesUpdatedAt : Option String := none
  createdAt : Option String := none
  updatedAt : Option String := none
deriving Repr, DecidableEq

namespace UserRepository

/-- `SELECT * FROM users WHERE id = ? LIMIT 1` (UserRepository.findById). -/
def findById (db : List UserRow) (id : String) : Option UserRow :=
  db.find? (fun r => r.id == id)

/-- Whether the `UPDATE` built by `UserRepository.update` has at least
one column assignment (any of the seven `UpdateUserDTO` fields). -/
def updateHasFields (d : UserPatch) : Bool :=
  d.name.isSome || d.username.isSome || d.email.isSome || d.role.isSome ||
  d.permissions.isSome || d.suspended.isSome || d.suspendedReason.isSome

/-- Effect of the `UPDATE users SET ... WHERE id = ?` built by
`UserRepository.update` on one row.  A present `suspended` flag also
assigns `suspended_at` (now / NULL) and, when false, clears
`suspended_reason`; a present `suspendedReason` is appended after that
clear in the `SET` list, so it wins (MySQL assigns left to right).  The
current-time parameters go through the datetime codec in the
src/unnamed/part_002 revision of the file (the src/unnamed/part_003
revision stores the raw ISO string; both are nonempty strings). -/
def applyUpdate (d : UserPatch) (now : String) (r : UserRow) : UserRow :=
  { r with
    name := d.name.getD r.name
    username := d.username.getD r.username
    email := d.email.getD r.email
    role := d.role.getD r.role
    permissions := d.permissions.getD r.permissions
    suspended := d.suspended.getD r.suspended
    suspended_at :=
      match d.suspended with
      | some true => some (toSqlDt now)
      | some false => none
      | none => r.suspended_at
    suspended_reason :=
      match d.suspendedReason with
      | some v => some v
      | none => match d.suspended with
        | some false => none
        | _ => r.suspended_reason
    updated_at := toSqlDt now }

/-- `UserRepository.update`: plain read when no DTO field is present,
otherwise the assembled `UPDATE ... WHERE id = ?`. -/
def update (db : List UserRow) (id : String) (d : UserPatch)
    (now : String) : List UserRow :=
  if updateHasFields d then
    db.map (fun r => if r.id == id then applyUpdate d now r else r)
  else
    db

/-- `UserRepository.suspendUser`: `suspended = 1`, `suspended_at = now`,
`suspended_reason = reason || null`, `updated_at = now`, by id. -/
def suspendUser (db : List UserRow) (id : String) (reason : Option String)
    (now : String) : List UserRow :=
  db.map (fun r =>
    if r.id == id then
      { r with
        suspended := true
        suspended_at := some (toSqlDt now)
        suspended_reason := jsOrNull reason
        updated_at := toSqlDt now }
    else r)

/-- `UserRepository.unsuspendUser`: `suspended = 0`, `suspended_at =
NULL`, `suspended_reason = NULL`, `updated_at = now`, by id. -/
def unsuspendUser (db : List UserRow) (id : String) (now : String) :
    List UserRow :=
  db.map (fun r =>
    if r.id == id then
      { r with
        suspended := false
        suspended_at := none
        suspended_reason := none
        updated_at := toSqlDt now }
    else r)

/-- Whether the update branch of `UserRepository.upsert` has at least one
column assignment (any of the thirteen fields it reads). -/
def upsertUpdateHasFields (d : UserPatch) : Bool :=
  d.name.isSome || d.username.isSome || d.email.isSome ||
  d.passwordHash.isSome || d.hashAlgorithm.isSome || d.role.isSome ||
  d.permissions.isSome || d.suspended.isSome || d.suspendedAt.isSome ||
  d.suspendedReason.isSome || d.lastLoginAt.isSome || d.lastSeenAt.isSome ||
  d.notesUpdatedAt.isSome

/-- Effect of the `UPDATE` built by the present branch of
`UserRepository.upsert` on one row.  Unlike `update`, the `suspended`,
`suspendedAt` and `suspendedReason` fields are applied independently,
and `updated_at` is taken from `data.updatedAt || now`. -/
def applyUpsertUpdate (d : UserPatch) (now : String) (r : UserRow) : UserRow :=
  { r with
    name := d.name.getD r.name
    username := d.username.getD r.username
    email := d.email.getD r.email
    password_hash := d.passwordHash.getD r.password_hash
    hash_algorithm := d.hashAlgorithm.getD r.hash_algorithm
    role := d.role.getD r.role
    permissions := d.permissions.getD r.permissions
    suspended := d.suspended.getD r.suspended
    suspended_at :=
      match d.suspendedAt with
      | some v => toMySQLDatetime (some v)
      | none => r.suspended_at
    suspended_reason :=
      match d.suspendedReason with
      | some v => some v
      | none => r.suspended_reason
    last_login_at :=
      match d.lastLoginAt with
      | some v => toMySQLDatetime (some v)
      | none => r.last_login_at
    last_seen_at :=
      match d.lastSeenAt with
      | some v => toMySQLDatetime (some v)
      | none => r.last_seen_at
    notes_updated_at :=
      match d.notesUpdatedAt with
      | some v => toMySQLDatetime (some v)
      | none => r.notes_updated_at
    updated_at := toSqlDt (jsOr d.updatedAt now) }

/-- The local part of an email address: `email.split(at)[0]`. -/
def emailLocalPart (e : String) : String :=
  (e.splitOn "@").headD ""

/-- The row inserted by the absent branch of `UserRepository.upsert`:
`username` falls back to the email's local part and then to the literal
user, the other supplied fields get JS-falsy defaults, the datetime
fields go through the codec. -/
def upsertInsertRow (id : String) (d : UserPatch) (now : String) :
    UserRow where
  id := id
  username := jsOr d.username (jsOr (d.email.map emailLocalPart) "user")
  email := jsOr d.email ""
  password_hash := jsOr d.passwordHash ""
  hash_algorithm := jsOr d.hashAlgorithm "pbkdf2"
  name := jsOr d.name ""
  role := jsOr d.role "user"
  permissions := d.permissions.getD []
  suspended := d.suspended.getD false
  suspended_at := toMySQLDatetime d.suspendedAt
  suspended_reason := jsOrNull d.suspendedReason
  last_login_at := toMySQLDatetime d.lastLoginAt
  last_seen_at := toMySQLDatetime d.lastSeenAt
  notes_updated_at := toMySQLDatetime d.notesUpdatedAt
  created_at := jsOr (toMySQLDatetime d.createdAt) (toSqlDt now)
  updated_at := jsOr (toMySQLDatetime d.updatedAt) (toSqlDt now)

/-- `UserRepository.upsert`: existence check `SELECT id FROM users WHERE
id = ?`, an `UPDATE` of the present fields when the row exists (skipped
entirely when no field is present), a full `INSERT` with defaults when
it does not (success-path semantics, as for notes). -/
def upsert (db : List UserRow) (id : String) (d : UserPatch)
    (now : String) : List UserRow :=
  if db.any (fun r => r.id == id) then
    if upsertUpdateHasFields d then
      db.map (fun r => if r.id == id then applyUpsertUpdate d now r else r)
    else db
  else
    db ++ [upsertInsertRow id d now]

end UserRepository

/-- One element of a `bulkUpsert` batch for users: a `Partial<User>`
carrying a mandatory `id`. -/
structure UserSyncItem where
  id : String
  data : UserPatch
deriving Repr, DecidableEq

namespace UserRepository

/-- `UserRepository.bulkUpsert`: one `upsert` per array element collected
with `Promise.allSettled`; rejected elements are skipped and logged, the
fulfilled ones counted (failure oracle and interleaving modelled as for
notes). -/
def bulkUpsert (fails : UserSyncItem → Bool) (db : List UserRow)
    (items : List UserSyncItem) (now : String) : List UserRow × Nat :=
  items.foldl
    (fun acc i =>
      if fails i then acc
      else (upsert acc.1 i.id i.data now, acc.2 + 1))
    (db, 0)

end UserRepository

/-! ## Pagination options and assembled query text
(src/src/database/interfaces/IRepository.ts and the template strings of
findAll / findByOwnerId) -/

/-- The `orderDirection` option: its TypeScript type is the closed union
of the literals ASC and DESC. -/
inductive OrderDir where
  | ASC
  | DESC
deriving Repr, DecidableEq

/-- The text interpolated for the direction:
`options?.orderDirection || 'DESC'` (both literals are truthy). -/
def orderDirText (x : Option OrderDir) : String :=
  match x with
  | some OrderDir.ASC => "ASC"
  | _ => "DESC"

/-- `QueryOptions`: `limit`/`offset` numbers and a free-form `orderBy`
column string. -/
structure QueryOptions where
  limit : Option Nat := none
  offset : Option Nat := none
  orderBy : Option String := none
  orderDirection : Option OrderDir := none
deriving Repr, DecidableEq

namespace NoteRepository

/-- The data-query text assembled by `NoteRepository.findAll`: the
`orderBy` option (default `updated_at`) and the direction are
interpolated directly into the template string. -/
def findAllSql (o : QueryOptions) : String :=
  "SELECT * FROM notes WHERE (is_deleted = 0 OR is_deleted IS NULL) ORDER BY "
    ++ jsOr o.orderBy "updated_at" ++ " " ++ orderDirText o.orderDirection
    ++ " LIMIT ? OFFSET ?"

end NoteRepository

namespace UserRepository

/-- The data-query text assembled by `UserRepository.findAll` (default
order column `created_at`). -/
def findAllSql (o : QueryOptions) : String :=
  "SELECT * FROM users ORDER BY " ++ jsOr o.orderBy "created_at" ++ " "
    ++ orderDirText o.orderDirection ++ " LIMIT ? OFFSET ?"

end UserRepository

/-- `FolderQueryOptions`: `QueryOptions` plus the owner and
deleted-state flags. -/
structure FolderQueryOptions where
  limit : Option Nat := none
  offset : Option Nat := none
  orderBy : Option String := none
  orderDirection : Option OrderDir := none
  ownerId : Option String := none
  includeDeleted : Option Bool := none
  onlyDeleted : Option Bool := none
deriving Repr, DecidableEq

namespace FolderRepository

/-- The WHERE conditions assembled by `FolderRepository.findByOwnerId`:
owner equality plus the deleted-state predicate chosen from the option
flags. -/
def ownerConds (o : FolderQueryOptions) : List String :=
  ["owner_id = ?"] ++
    (if o.onlyDeleted.getD false then ["is_deleted = 1"]
     else if o.includeDeleted.getD false then []
     else ["(is_deleted = 0 OR is_deleted IS NULL)"])

/-- The query text assembled by `FolderRepository.findByOwnerId`
(default order column `created_at`; no LIMIT clause). -/
def findByOwnerIdSql (o : FolderQueryOptions) : String :=
  "SELECT * FROM folders WHERE " ++ String.intercalate " AND " (ownerConds o)
    ++ " ORDER BY " ++ jsOr o.orderBy "created_at" ++ " "
    ++ orderDirText o.orderDirection

end FolderRepository

/-! ## Filtered pagination semantics (findWithFilter) -/

/-- `PaginatedResult<T>` of src/src/database/interfaces/IRepository.ts. -/
structure PaginatedResult (α : Type) where
  data : List α
  total : Nat
  limit : Nat
  offset : Nat
deriving Repr, DecidableEq

/-- `NoteQueryOptions`: the optional filter fields of the note query
builder (`folderId` is three-state, `some none` meaning "must have no
folder"). -/
structure NoteQueryOptions where
  limit : Option Nat := none
  offset : Option Nat := none
  orderBy : Option String := none
  orderDirection : Option OrderDir := none
  ownerId : Option String := none
  folderId : Option (Option String) := none
  tags : Option (List String) := none
  includeDeleted : Option Bool := none
  onlyDeleted : Option Bool := none
  visibility : Option String := none

namespace NoteRepository

/-- The conjunction of predicates pushed onto `conditions` by
`NoteRepository.findWithFilter`, in source order, as row predicates:
owner equality (when the option is truthy), the deleted-state predicate,
the three-state folder predicate, visibility equality, and tag
containment (`JSON_CONTAINS` per requested tag, joined with OR). -/
def filterConds (o : NoteQueryOptions) : List (NoteRow → Bool) :=
  ((match jsOrNull o.ownerId with
   | some a => [fun r => r.owner_id == a]
   | none => []) : List (NoteRow → Bool)) ++
  ((if o.onlyDeleted.getD false then [fun r => r.is_deleted]
   else if o.includeDeleted.getD false then []
   else [fun r => !r.is_deleted]) : List (NoteRow → Bool)) ++
  ((match o.folderId with
   | none => []
   | some none => [fun r => r.folder_id.isNone]
   | some (some f) => [fun r => r.folder_id == some f]) : List (NoteRow → Bool)) ++
  ((match jsOrNull o.visibility with
   | some v => [fun r => r.visibility == v]
   | none => []) : List (NoteRow → Bool)) ++
  ((match o.tags with
   | some ts => if ts.length > 0 then [fun r => ts.any (fun t => r.tags.contains t)] else []
   | none => []) : List (NoteRow → Bool))

/-- Whether a row satisfies every condition of the assembled WHERE
clause. -/
def matchesFilter (o : NoteQueryOptions) (r : NoteRow) : Bool :=
  (filterConds o).all (fun c => c r)

/-- `NoteRepository.findWithFilter`: the data query applies the
conditions, the interpolated ORDER BY (modelled by the reordering
function `ord`) and `LIMIT ? OFFSET ?`; the COUNT query applies exactly
the same conditions with the same parameters and no limit or order.
Both run concurrently over the same snapshot `db`. -/
def findWithFilter (ord : List NoteRow → List NoteRow) (db : List NoteRow)
    (o : NoteQueryOptions) : PaginatedResult NoteRow :=
  let limit := natOr o.limit 50
  let offset := natOr o.offset 0
  let conds := filterConds o
  { data := (((ord (db.filter (fun r => conds.all (fun c => c r)))).drop offset).take limit)
    total := (db.filter (fun r => conds.all (fun c => c r))).length
    limit := limit
    offset := offset }

end NoteRepository

/-- Whether `pat` occurs at the start of `s` (character lists). -/
def charsPrefix : List Char → List Char → Bool
  | [], _ => true
  | _ :: _, [] => false
  | a :: as, b :: bs => a == b && charsPrefix as bs

/-- Whether `pat` occurs anywhere inside `s` (character lists). -/
def charsInfix (pat : List Char) : List Char → Bool
  | [] => charsPrefix pat []
  | c :: rest => charsPrefix pat (c :: rest) || charsInfix pat rest

/-- Semantics of the SQL predicate `col LIKE CONCAT(pct, pat, pct)`:
substring containment (wildcard characters inside `pat` are not given
special meaning here). -/
def likeContains (s pat : String) : Bool :=
  charsInfix pat.data s.data

/-- `UserQueryOptions`: free-text search plus role equality. -/
structure UserQueryOptions where
  limit : Option Nat := none
  offset : Option Nat := none
  orderBy : Option String := none
  orderDirection : Option OrderDir := none
  search : Option String := none
  role : Option String := none

namespace UserRepository

/-- The conditions pushed by `UserRepository.findWithFilter`: an OR of
LIKE predicates over username/email/name for a truthy `search`, and role
equality for a truthy `role`. -/
def filterConds (o : UserQueryOptions) : List (UserRow → Bool) :=
  ((match jsOrNull o.search with
   | some s => [fun r =>
       likeContains r.username s || likeContains r.email s || likeContains r.name s]
   | none => []) : List (UserRow → Bool)) ++
  ((match jsOrNull o.role with
   | some v => [fun r => r.role == v]
   | none => []) : List (UserRow → Bool))

/-- Whether a row satisfies the assembled WHERE clause. -/
def matchesFilter (o : UserQueryOptions) (r : UserRow) : Bool :=
  (filterConds o).all (fun c => c r)

/-- `UserRepository.findWithFilter`: same conditions and parameters in
the data query (ordered by `created_at DESC`, modelled by `ord`, with
`LIMIT ? OFFSET ?`) and in the COUNT query. -/
def findWithFilter (ord : List UserRow → List UserRow) (db : List UserRow)
    (o : UserQueryOptions) : PaginatedResult UserRow :=
  let limit := natOr o.limit 50
  let offset := natOr o.offset 0
  let conds := filterConds o
  { data := (((ord (db.filter (fun r => conds.all (fun c => c r)))).drop offset).take limit)
    total := (db.filter (fun r => conds.all (fun c => c r))).length
    limit := limit
    offset := offset }

end UserRepository

/-! ## Connection pool health check (src/unnamed/part_000) -/

/-- An abstract pooled connection. -/
structure Conn where
  connId : Nat
deriving Repr, DecidableEq

/-- An abstract store error. -/
structure DbErr where
  message : String
deriving Repr, DecidableEq

/-- The behaviour of the pool during one `healthCheck` call:
the outcome of `pool.getConnection()` and, per connection, the outcome
of the no-op round trip `connection.ping()`. -/
structure PoolEnv where
  acquire : Except DbErr Conn
  ping : Conn → Except DbErr Unit

/-- The body of the `try` block of `healthCheck`: acquire a connection,
ping it, release it, yield true.  Either awaited step may reject. -/
def healthCheckAttempt (env : PoolEnv) : Except DbErr Bool :=
  match env.acquire with
  | Except.error e => Except.error e
  | Except.ok c =>
    match env.ping c with
    | Except.error e => Except.error e
    | Except.ok _ => Except.ok true

/-- `healthCheck` (connection module): the `try`/`catch` wrapper around
`healthCheckAttempt`; every rejection is caught, logged and turned into
`false`. -/
def healthCheck (env : PoolEnv) : Bool :=
  match healthCheckAttempt env with
  | Except.ok b => b
  | Except.error _ => false

/-! ## Gateway migrate (src/unnamed/part_001, MySQLAdapter.migrate) -/

/-- A store error carrying the MySQL error code, as inspected by the
catch block of `migrate`. -/
structure SqlError where
  code : String
deriving Repr, DecidableEq

/-- The six per-table CREATE TABLE IF NOT EXISTS statements issued by
`MySQLAdapter.migrate`, identified here by table name (the DDL text is
irrelevant to the control flow being verified). -/
def migrateTables : List String :=
  ["users", "folders", "notes", "sessions", "audit_logs", "push_subscriptions"]

/-- The for-loop of `MySQLAdapter.migrate` over an execution behaviour
`exec` for the statements.  Each iteration runs one statement inside its
own `try`/`catch`; the catch swallows the error, emitting a warning log
(counted here) unless the code is ER_TABLE_EXISTS_ERROR.  The outer
`Except` records what the loop as a whole would propagate to the
caller. -/
def migrateLoop (exec : String → Except SqlError Unit) :
    List String → Except SqlError Nat
  | [] => Except.ok 0
  | sql :: rest =>
    let step : Except SqlError Nat :=
      match exec sql with
      | Except.ok _ => Except.ok 0
      | Except.error e =>
        Except.ok (if e.code == "ER_TABLE_EXISTS_ERROR" then 0 else 1)
    match step with
    | Except.ok w =>
      match migrateLoop exec rest with
      | Except.ok n => Except.ok (w + n)
      | Except.error e => Except.error e
    | Except.error e => Except.error e

/-- `MySQLAdapter.migrate`: runs the six CREATE statements through the
swallowing loop; the result is the number of warning logs emitted, or a
propagated error (the theorem below shows the latter is impossible). -/
def migrate (exec : String → Except SqlError Unit) : Except SqlError Nat :=
  migrateLoop exec migrateTables

/-! ## Helper lemmas -/

/-- Searching a mapped list is the same as mapping the search result,
when the mapping does not change the searched predicate. -/
theorem find_map_pres {α : Type} (q : α → Bool) (h : α → α)
    (hq : ∀ a, q (h a) = q a) :
    ∀ l : List α, (l.map h).find? q = (l.find? q).map h := by
  intro l
  induction l with
  | nil => rfl
  | cons x xs ih =>
    cases hx : q x with
    | false =>
      rw [List.map_cons, List.find?_cons_of_neg _ (by simp [hq, hx]),
        List.find?_cons_of_neg _ (by simp [hx])]
      exact ih
    | true =>
      rw [List.map_cons, List.find?_cons_of_pos _ (by simp [hq, hx]),
        List.find?_cons_of_pos _ (by simp [hx])]
      simp

/-- The elements failing a test and those passing it partition the
length of a list. -/
theorem length_filter_not_add {α : Type} (p : α → Bool) :
    ∀ l : List α,
      (l.filter (fun a => !(p a))).length + (l.filter p).length = l.length := by
  intro l
  induction l with
  | nil => rfl
  | cons x xs ih => cases hx : p x <;> simp [List.filter_cons, hx] <;> omega

/-- Unfolding the skip-on-failure fold used by the note and user bulk
engines: the final state is the fold of the step function over the
non-failing elements, and the counter advances by their number. -/
theorem bulk_fold {σ ι : Type} (f : σ → ι → σ) (fails : ι → Bool) :
    ∀ (items : List ι) (s : σ) (n : Nat),
      items.foldl
          (fun acc i => if fails i then acc else (f acc.1 i, acc.2 + 1)) (s, n)
        = ((items.filter (fun i => !(fails i))).foldl f s,
           n + (items.filter (fun i => !(fails i))).length) := by
  intro items
  induction items with
  | nil => intro s n; simp
  | cons x xs ih =>
    intro s n
    cases hx : fails x with
    | true => simp [List.foldl_cons, List.filter_cons, hx, ih]
    | false =>
      simp only [List.foldl_cons, List.filter_cons, hx]
      rw [if_neg (by simp), ih]
      simp [Nat.add_assoc, Nat.add_comm 1]

/-- Unfolding the sequential folder bulk loop: it stops at the first
failing element (whose error is re-raised), keeping the effects of the
elements before it; with no failing element it applies every element and
counts them all. -/
theorem folder_bulk_go_spec (fails : FolderSyncItem → Bool) (now : String) :
    ∀ (items : List FolderSyncItem) (db : List FolderRow) (count : Nat),
      FolderRepository.bulkUpsertGo fails now db count items
        = ((if items.any fails then Except.error () else Except.ok (count + items.length)),
           (items.takeWhile (fun i => !(fails i))).foldl
             (fun acc i => FolderRepository.upsert acc i.id i.ownerId i.data now) db) := by
  intro items
  induction items with
  | nil => intro db count; simp [FolderRepository.bulkUpsertGo]
  | cons x xs ih =>
    intro db count
    cases hx : fails x with
    | true => simp [FolderRepository.bulkUpsertGo, hx, List.takeWhile_cons]
    | false =>
      simp only [FolderRepository.bulkUpsertGo, hx, Bool.false_eq_true, if_false,
        List.any_cons, Bool.false_or, List.takeWhile_cons, Bool.not_false, if_true,
        List.foldl_cons, ih]
      congr 1
      cases xs.any fails <;> simp [List.length_cons] <;> omega

/-! ## Sample rows used by concrete witnesses and counterexamples -/

/-- A minimal active note row owned by user u1. -/
def baseNote : NoteRow where
  id := "n1"
  owner_id := "u1"
  title := "T"
  content := "C"
  tags := []
  pinned := false
  favorite := false
  folder_id := none
  visibility := "private"
  password := none
  share_url := none
  short_id := none
  expires_at := none
  views := 0
  versions := []
  comments := []
  created_at := "t0"
  updated_at := "t0"
  is_deleted := false
  deleted_at := none
  original_folder_id := none
  original_pinned := none
  original_favorite := none

/-- A minimal unsuspended user row. -/
def baseUser : UserRow where
  id := "u1"
  username := "alice"
  email := "alice@example.com"
  password_hash := "h"
  hash_algorithm := "pbkdf2"
  name := "Alice"
  role := "user"
  permissions := []
  suspended := false
  suspended_at := none
  suspended_reason := none
  last_login_at := none
  last_seen_at := none
  notes_updated_at := none
  created_at := "t0"
  updated_at := "t0"

/-! ## C1 -/

/-- C1 counterexample: in the folder repository a failing element does
abort the rest of the batch and no success count is returned.  With a
two-element batch whose first element fails, `bulkUpsert` propagates the
error and the well-formed second element is never persisted, instead of
returning the success count 1 with the second element applied. -/
theorem c1_folder_bulkUpsert_abort_cex :
    FolderRepository.bulkUpsert (fun i => i.id == "bad") []
        [⟨"bad", "u1", {}⟩, ⟨"f1", "u1", {}⟩] "2024-01-01T00:00:00.000Z"
      = (Except.error (), []) := by
  rfl

/-- C1 (amended): the note and user `bulkUpsert` apply `upsert` to each
array element independently — a failing element is skipped without
aborting or rolling back the others, and the returned count is exactly
the number of elements whose upsert succeeded (N minus the failed ones).
The folder `bulkUpsert`, however, runs the elements sequentially and
stops at the first failing element: the elements before it keep their
effects (the surrounding transaction does not cover the pool-level
statements), the remaining elements are never attempted, and the error
propagates instead of a success count. -/
theorem c1_bulkUpsert_partial_failure :
    (∀ (fails : NoteSyncItem → Bool) (db : List NoteRow)
       (items : List NoteSyncItem) (now : String),
        (NoteRepository.bulkUpsert fails db items now).2
            = (items.filter (fun i => !(fails i))).length
      ∧ (NoteRepository.bulkUpsert fails db items now).2
            = items.length - (items.filter fails).length
      ∧ (NoteRepository.bulkUpsert fails db items now).1
            = (items.filter (fun i => !(fails i))).foldl
                (fun acc i => NoteRepository.upsert acc i.id i.ownerId i.data now) db)
  ∧ (∀ (fails : UserSyncItem → Bool) (db : List UserRow)
       (items : List UserSyncItem) (now : String),
        (UserRepository.bulkUpsert fails db items now).2
            = (items.filter (fun i => !(fails i))).length
      ∧ (UserRepository.bulkUpsert fails db items now).2
            = items.length - (items.filter fails).length
      ∧ (UserRepository.bulkUpsert fails db items now).1
            = (items.filter (fun i => !(fails i))).foldl
                (fun acc i => UserRepository.upsert acc i.id i.data now) db)
  ∧ (∀ (fails : FolderSyncItem → Bool) (db : List FolderRow)
       (items : List FolderSyncItem) (now : String),
        FolderRepository.bulkUpsert fails db items now
          = ((if items.any fails then Except.error () else Except.ok items.length),
             (items.takeWhile (fun i => !(fails i))).foldl
               (fun acc i => FolderRepository.upsert acc i.id i.ownerId i.data now) db)) := by
  refine ⟨?_, ?_, ?_⟩
  · intro fails db items now
    have h := bulk_fold
      (fun acc i => NoteRepository.upsert acc i.id i.ownerId i.data now) fails items db 0
    have hc := length_filter_not_add fails items
    refine ⟨?_, ?_, ?_⟩
    · simp [NoteRepository.bulkUpsert, h]
    · simp [NoteRepository.bulkUpsert, h]; omega
    · simp [NoteRepository.bulkUpsert, h]
  · intro fails db items now
    have h := bulk_fold
      (fun acc i => UserRepository.upsert acc i.id i.data now) fails items db 0
    have hc := length_filter_not_add fails items
    refine ⟨?_, ?_, ?_⟩
    · simp [UserRepository.bulkUpsert, h]
    · simp [UserRepository.bulkUpsert, h]; omega
    · simp [UserRepository.bulkUpsert, h]
  · intro fails db items now
    simpa [FolderRepository.bulkUpsert] using
      folder_bulk_go_spec fails now items db 0

/-! ## C2 -/

/-- C2: upsert is not idempotent.  With a fresh store, a patch carrying
a title and a client-side `updatedAt`, and the clock frozen at one
instant, a single `upsert` inserts the row keeping the client
`updatedAt` (2020-01-01), while an immediate second identical `upsert`
routes to `update`, which unconditionally overwrites `updated_at` with
the current time (2024-05-05): the terminal row states differ. -/
theorem c2_upsert_not_idempotent :
    (NoteRepository.upsert
        (NoteRepository.upsert [] "n1" "u1"
          { title := some "t", updatedAt := some "2020-01-01T00:00:00.000Z" }
          "2024-05-05T00:00:00.000Z")
        "n1" "u1"
        { title := some "t", updatedAt := some "2020-01-01T00:00:00.000Z" }
        "2024-05-05T00:00:00.000Z"
      ≠ NoteRepository.upsert [] "n1" "u1"
          { title := some "t", updatedAt := some "2020-01-01T00:00:00.000Z" }
          "2024-05-05T00:00:00.000Z")
  ∧ ((NoteRepository.findById
        (NoteRepository.upsert [] "n1" "u1"
          { title := some "t", updatedAt := some "2020-01-01T00:00:00.000Z" }
          "2024-05-05T00:00:00.000Z") "n1").map (fun r => r.updated_at)
      = some "2020-01-01T00:00:00.000Z")
  ∧ ((NoteRepository.findById
        (NoteRepository.upsert
          (NoteRepository.upsert [] "n1" "u1"
            { title := some "t", updatedAt := some "2020-01-01T00:00:00.000Z" }
            "2024-05-05T00:00:00.000Z")
          "n1" "u1"
          { title := some "t", updatedAt := some "2020-01-01T00:00:00.000Z" }
          "2024-05-05T00:00:00.000Z") "n1").map (fun r => r.updated_at)
      = some "2024-05-05T00:00:00.000Z") := by
  refine ⟨by decide, by decide, by decide⟩

/-! ## C3 -/

/-- An already-trashed note row carrying shadow placement state. -/
def trashedNote : NoteRow :=
  { baseNote with
    is_deleted := true
    deleted_at := some "t1"
    original_folder_id := some "f1"
    original_pinned := some true }

/-- An active note row placed in a folder with the pinned flag set. -/
def placedNote : NoteRow :=
  { baseNote with folder_id := some "f1", pinned := true, favorite := true }

/-- C3 counterexample: the trash and restore transitions are not guarded
by their source state.  Trashing an already-trashed note is not a no-op:
it refreshes `deleted_at` and overwrites the original* shadow fields
with the cleared live values (the stored shadow pin `some true` becomes
`some false` and the shadow folder f1 is lost); restoring an
already-active note is not a no-op on the live fields either: its
`folder_id` f1 and `pinned` flag are cleared. -/
theorem c3_state_guard_cex :
    (NoteRepository.softDelete [trashedNote] "n1" "u1" "t2" ≠ [trashedNote])
  ∧ ((NoteRepository.findById
        (NoteRepository.softDelete [trashedNote] "n1" "u1" "t2") "n1").map
        (fun r => (r.original_folder_id, r.original_pinned, r.deleted_at))
      = some (none, some false, some "t2"))
  ∧ ((NoteRepository.findById
        (NoteRepository.restore [placedNote] "n1" "u1" "t2") "n1").map
        (fun r => (r.folder_id, r.pinned, r.favorite))
      = some (none, false, false)) := by
  refine ⟨by decide, by decide, by decide⟩

/-- C3 (amended): trash is a no-op only when the note is missing or not
owned by the caller.  Applied to an owned note it re-runs the trash
update regardless of state: on an already-trashed note (satisfying the
trashed-state invariant of cleared live placement) it refreshes
deletedAt and overwrites the original* shadow fields with the cleared
live values.  Restore likewise applies its update to any owned note
regardless of state: on an active note (satisfying the active-state
invariant of unset shadow fields) it replaces folderId/pinned/favorite
by the shadow defaults null/false/false instead of leaving them
unchanged. -/
theorem c3_transitions_unguarded
    (db : List NoteRow) (id ownerId now : String) :
    (NoteRepository.findById db id = none →
      NoteRepository.softDelete db id ownerId now = db)
  ∧ (∀ r, NoteRepository.findById db id = some r → r.owner_id ≠ ownerId →
      NoteRepository.softDelete db id ownerId now = db)
  ∧ (∀ r, NoteRepository.findById db id = some r → r.owner_id = ownerId →
      r.is_deleted = true → r.folder_id = none → r.pinned = false →
      r.favorite = false →
      NoteRepository.findById (NoteRepository.softDelete db id ownerId now) id
        = some { r with
                 deleted_at := some now
                 updated_at := now
                 original_folder_id := none
                 original_pinned := some false
                 original_favorite := some false })
  ∧ (∀ r, NoteRepository.findById db id = some r → r.owner_id = ownerId →
      r.is_deleted = false → r.original_folder_id = none →
      r.original_pinned = none → r.original_favorite = none →
      NoteRepository.findById (NoteRepository.restore db id ownerId now) id
        = some { r with
                 folder_id := none
                 pinned := false
                 favorite := false
                 deleted_at := none
                 updated_at := now }) := by
  refine ⟨?_, ?_, ?_, ?_⟩
  · intro h
    simp [NoteRepository.softDelete, h]
  · intro r hfind hown
    simp [NoteRepository.softDelete, hfind, hown]
  · intro r hfind hown hdel hfol hpin hfav
    have hfind2 : db.find? (fun a => a.id == id) = some r := hfind
    have hq0 := List.find?_some hfind2
    have hq : (r.id == id) = true := by simpa using hq0
    simp only [NoteRepository.softDelete, hfind]
    rw [if_neg (by simp [hown])]
    rw [NoteRepository.findById, find_map_pres _ _
      (fun a => by
        by_cases hc : (a.id == id && a.owner_id == ownerId) = true <;>
          simp [hc, NoteRepository.applySoftDelete])]
    rw [hfind2]
    have hid : r.id = id := by simpa using hq
    simp [NoteRepository.applySoftDelete, hid, hown, hdel, hfol, hpin, hfav]
  · intro r hfind hown hact horf horp horv
    have hfind2 : db.find? (fun a => a.id == id) = some r := hfind
    have hq0 := List.find?_some hfind2
    have hq : (r.id == id) = true := by simpa using hq0
    rw [NoteRepository.restore, NoteRepository.findById, find_map_pres _ _
      (fun a => by
        by_cases hc : (a.id == id && a.owner_id == ownerId) = true <;>
          simp [hc, NoteRepository.applyRestore])]
    rw [hfind2]
    have hid : r.id = id := by simpa using hq
    simp [NoteRepository.applyRestore, hid, hown, hact, horf, horp, horv]

/-- C3 witness: the amended theorem applied to a one-row table, once
with a trashed owned note and once with an active owned note. -/
theorem c3_transitions_unguarded_witness :
    (NoteRepository.findById
        (NoteRepository.softDelete [trashedNote] "n1" "u1" "t2") "n1"
      = some { trashedNote with
               deleted_at := some "t2"
               updated_at := "t2"
               original_folder_id := none
               original_pinned := some false
               original_favorite := some false })
  ∧ (NoteRepository.findById
        (NoteRepository.restore [placedNote] "n1" "u1" "t2") "n1"
      = some { placedNote with
               folder_id := none
               pinned := false
               favorite := false
               deleted_at := none
               updated_at := "t2" }) := by
  constructor
  · exact (c3_transitions_unguarded [trashedNote] "n1" "u1" "t2").2.2.1
      trashedNote (by decide) (by decide) (by decide) (by decide) (by decide)
      (by decide)
  · exact (c3_transitions_unguarded [placedNote] "n1" "u1" "t2").2.2.2
      placedNote (by decide) (by decide) (by decide) (by decide) (by decide)
      (by decide)

/-! ## C5 -/

/-- C5: the trash/restore round trip restores a note's placement.  For
an owned active note with placement `(f, p, v)`, after `softDelete` the
live placement is cleared (`folder_id` null, flags false, trashed with
the deletion timestamp), and after a subsequent `restore` the note again
carries `(f, p, v)`, is active, and has all original* shadow fields
unset. -/
theorem c5_trash_restore_roundtrip
    (db : List NoteRow) (id ownerId now1 now2 : String) (r : NoteRow)
    (hfind : NoteRepository.findById db id = some r)
    (hown : r.owner_id = ownerId)
    (hact : r.is_deleted = false) :
    (∃ r1, NoteRepository.findById
        (NoteRepository.softDelete db id ownerId now1) id = some r1
      ∧ r1.folder_id = none ∧ r1.pinned = false ∧ r1.favorite = false
      ∧ r1.is_deleted = true ∧ r1.deleted_at = some now1)
  ∧ (∃ r2, NoteRepository.findById
        (NoteRepository.restore
          (NoteRepository.softDelete db id ownerId now1) id ownerId now2) id
        = some r2
      ∧ r2.folder_id = r.folder_id ∧ r2.pinned = r.pinned
      ∧ r2.favorite = r.favorite ∧ r2.is_deleted = false
      ∧ r2.deleted_at = none ∧ r2.original_folder_id = none
      ∧ r2.original_pinned = none ∧ r2.original_favorite = none) := by
  have hfind2 : db.find? (fun a => a.id == id) = some r := hfind
  have hq0 := List.find?_some hfind2
  have hq : (r.id == id) = true := by simpa using hq0
  have hid : r.id = id := by simpa using hq
  have hmap1 : NoteRepository.findById
      (NoteRepository.softDelete db id ownerId now1) id
      = some (NoteRepository.applySoftDelete now1 r) := by
    simp only [NoteRepository.softDelete, hfind]
    rw [if_neg (by simp [hown])]
    rw [NoteRepository.findById, find_map_pres _ _
      (fun a => by
        by_cases hc : (a.id == id && a.owner_id == ownerId) = true <;>
          simp [hc, NoteRepository.applySoftDelete])]
    rw [hfind2]
    simp [hid, hown]
  refine ⟨⟨NoteRepository.applySoftDelete now1 r, hmap1, ?_, ?_, ?_, ?_, ?_⟩, ?_⟩
  · simp [NoteRepository.applySoftDelete]
  · simp [NoteRepository.applySoftDelete]
  · simp [NoteRepository.applySoftDelete]
  · simp [NoteRepository.applySoftDelete]
  · simp [NoteRepository.applySoftDelete]
  · have hfindd : (NoteRepository.softDelete db id ownerId now1).find?
        (fun a => a.id == id) = some (NoteRepository.applySoftDelete now1 r) :=
      hmap1
    refine ⟨NoteRepository.applyRestore now2 (NoteRepository.applySoftDelete now1 r),
      ?_, ?_, ?_, ?_, ?_, ?_, ?_, ?_, ?_⟩
    · rw [NoteRepository.restore, NoteRepository.findById, find_map_pres _ _
        (fun a => by
          by_cases hc : (a.id == id && a.owner_id == ownerId) = true <;>
            simp [hc, NoteRepository.applyRestore])]
      rw [hfindd]
      simp [NoteRepository.applySoftDelete, hid, hown]
    · simp [NoteRepository.applyRestore, NoteRepository.applySoftDelete]
    · simp [NoteRepository.applyRestore, NoteRepository.applySoftDelete]
    · simp [NoteRepository.applyRestore, NoteRepository.applySoftDelete]
    · simp [NoteRepository.applyRestore]
    · simp [NoteRepository.applyRestore]
    · simp [NoteRepository.applyRestore]
    · simp [NoteRepository.applyRestore]
    · simp [NoteRepository.applyRestore]

/-- C5 witness: the round trip on a concrete pinned and favorited note
placed in folder f1 returns it to exactly that placement. -/
theorem c5_trash_restore_roundtrip_witness :
    ((NoteRepository.findById
        (NoteRepository.restore
          (NoteRepository.softDelete [placedNote] "n1" "u1" "ta")
          "n1" "u1" "tb") "n1").map
      (fun r => (r.folder_id, r.pinned, r.favorite, r.is_deleted,
                 r.original_pinned)))
      = some (some "f1", true, true, false, none) := by
  obtain ⟨-, r2, hfind2, hfol, hpin, hfav, hdel, hda, hof, hop, hov⟩ :=
    c5_trash_restore_roundtrip [placedNote] "n1" "u1" "ta" "tb" placedNote
      (by decide) (by decide) (by decide)
  rw [hfind2]
  simp [hfol, hpin, hfav, hdel, hop, placedNote]

/-! ## C4 -/

/-- C4 counterexample: there is no safe-list check on the order column.
A caller-supplied `orderBy` that is not a column name at all (here an
injected statement suffix) is interpolated verbatim into the query text
assembled by `findAll`. -/
theorem c4_orderby_cex :
    NoteRepository.findAllSql
        { orderBy := some "updated_at; DROP TABLE notes" }
      = ("SELECT * FROM notes WHERE (is_deleted = 0 OR is_deleted IS NULL)"
         ++ " ORDER BY updated_at; DROP TABLE notes DESC LIMIT ? OFFSET ?") := by
  decide

/-- C4 (amended): the ORDER BY direction is restricted to the closed set
ASC/DESC (by the type of `orderDirection`), but the ORDER BY column is
not restricted to any set of known column names: whatever string the
caller supplies in `orderBy` (or the per-repository default when it is
absent or empty) reaches the assembled query text of `findAll` and
`findByOwnerId` verbatim. -/
theorem c4_orderby_reaches_text :
    (∀ o : QueryOptions, ∃ p q,
      NoteRepository.findAllSql o = p ++ jsOr o.orderBy "updated_at" ++ q)
  ∧ (∀ o : QueryOptions, ∃ p q,
      UserRepository.findAllSql o = p ++ jsOr o.orderBy "created_at" ++ q)
  ∧ (∀ o : FolderQueryOptions, ∃ p q,
      FolderRepository.findByOwnerIdSql o = p ++ jsOr o.orderBy "created_at" ++ q)
  ∧ (∀ x : Option OrderDir, orderDirText x = "ASC" ∨ orderDirText x = "DESC") := by
  refine ⟨?_, ?_, ?_, ?_⟩
  · intro o
    exact ⟨"SELECT * FROM notes WHERE (is_deleted = 0 OR is_deleted IS NULL) ORDER BY ",
      " " ++ orderDirText o.orderDirection ++ " LIMIT ? OFFSET ?",
      by simp [NoteRepository.findAllSql, String.append_assoc]⟩
  · intro o
    exact ⟨"SELECT * FROM users ORDER BY ",
      " " ++ orderDirText o.orderDirection ++ " LIMIT ? OFFSET ?",
      by simp [UserRepository.findAllSql, String.append_assoc]⟩
  · intro o
    exact ⟨"SELECT * FROM folders WHERE "
        ++ String.intercalate " AND " (FolderRepository.ownerConds o) ++ " ORDER BY ",
      " " ++ orderDirText o.orderDirection,
      by simp [FolderRepository.findByOwnerIdSql, String.append_assoc]⟩
  · intro x
    match x with
    | none => exact Or.inr rfl
    | some OrderDir.ASC => exact Or.inl rfl
    | some OrderDir.DESC => exact Or.inr rfl

/-! ## C6 -/

/-- C6: `findWithFilter` evaluates both its queries against the same
predicate set: the returned `total` is the number of rows of the
snapshot matching the assembled WHERE conditions, every row of the
returned page matches those same conditions (for any reordering the
interpolated ORDER BY may produce), and `total` does not depend on the
`limit`/`offset` options.  In particular a query for owner A and tag x
returns only non-deleted notes of A containing x. -/
theorem c6_filter_total_consistency :
    (∀ (ord : List NoteRow → List NoteRow), (∀ l, (ord l).Perm l) →
      ∀ (db : List NoteRow) (o : NoteQueryOptions),
        (NoteRepository.findWithFilter ord db o).total
            = (db.filter (NoteRepository.matchesFilter o)).length
      ∧ (∀ r ∈ (NoteRepository.findWithFilter ord db o).data,
          NoteRepository.matchesFilter o r = true)
      ∧ (∀ lim off,
          (NoteRepository.findWithFilter ord db
              { o with limit := lim, offset := off }).total
            = (NoteRepository.findWithFilter ord db o).total))
  ∧ (∀ (ord : List UserRow → List UserRow), (∀ l, (ord l).Perm l) →
      ∀ (db : List UserRow) (o : UserQueryOptions),
        (UserRepository.findWithFilter ord db o).total
            = (db.filter (UserRepository.matchesFilter o)).length
      ∧ (∀ r ∈ (UserRepository.findWithFilter ord db o).data,
          UserRepository.matchesFilter o r = true)
      ∧ (∀ lim off,
          (UserRepository.findWithFilter ord db
              { o with limit := lim, offset := off }).total
            = (UserRepository.findWithFilter ord db o).total))
  ∧ (∀ (ord : List NoteRow → List NoteRow), (∀ l, (ord l).Perm l) →
      ∀ (db : List NoteRow) (A x : String), A ≠ "" →
      ∀ r ∈ (NoteRepository.findWithFilter ord db
          { ownerId := some A, tags := some [x] }).data,
        r.is_deleted = false ∧ r.owner_id = A ∧ r.tags.contains x = true) := by
  refine ⟨?_, ?_, ?_⟩
  · intro ord hperm db o
    refine ⟨rfl, ?_, fun lim off => rfl⟩
    intro r hr
    simp only [NoteRepository.findWithFilter] at hr
    have h1 : r ∈ ord (db.filter (NoteRepository.matchesFilter o)) :=
      List.mem_of_mem_drop (List.mem_of_mem_take hr)
    have h2 : r ∈ db.filter (NoteRepository.matchesFilter o) :=
      ((hperm _).mem_iff).mp h1
    exact List.of_mem_filter h2
  · intro ord hperm db o
    refine ⟨rfl, ?_, fun lim off => rfl⟩
    intro r hr
    simp only [UserRepository.findWithFilter] at hr
    have h1 : r ∈ ord (db.filter (UserRepository.matchesFilter o)) :=
      List.mem_of_mem_drop (List.mem_of_mem_take hr)
    have h2 : r ∈ db.filter (UserRepository.matchesFilter o) :=
      ((hperm _).mem_iff).mp h1
    exact List.of_mem_filter h2
  · intro ord hperm db A x hA r hr
    simp only [NoteRepository.findWithFilter] at hr
    have h1 : r ∈ ord (db.filter
        (NoteRepository.matchesFilter { ownerId := some A, tags := some [x] })) :=
      List.mem_of_mem_drop (List.mem_of_mem_take hr)
    have h2 : r ∈ db.filter
        (NoteRepository.matchesFilter { ownerId := some A, tags := some [x] }) :=
      ((hperm _).mem_iff).mp h1
    have hm := List.of_mem_filter h2
    simp [NoteRepository.matchesFilter, NoteRepository.filterConds, jsOrNull,
      hA] at hm
    exact ⟨hm.2.1, hm.1, by simp [hm.2.2]⟩

/-- C6 witness: with the identity ordering, a two-row table holding one
active and one trashed note, and the default options, the reported total
counts exactly the one matching (active) row. -/
theorem c6_filter_total_consistency_witness :
    (NoteRepository.findWithFilter (fun l => l)
        [baseNote, { baseNote with id := "n2", is_deleted := true }] {}).total
      = 1 := by
  have h := c6_filter_total_consistency.1 (fun l => l)
    (fun l => List.Perm.refl l)
    [baseNote, { baseNote with id := "n2", is_deleted := true }] {}
  rw [h.1]
  decide

/-! ## C7 -/

/-- C7: `update` with an empty partial input performs no write — the
table, including every stored field and the updated timestamp, is
unchanged — while `update` with at least one present field rewrites the
matched row so that exactly the supplied fields take their new values,
every other column keeps its stored value, and the updated timestamp is
refreshed to the current time.  Stated for the note and folder
repositories. -/
theorem c7_update_frame :
    (∀ (db : List NoteRow) (id : String) (d : NotePatch) (now : String),
      NoteRepository.updateHasFields d = false →
      NoteRepository.update db id d now = db)
  ∧ (∀ (db : List NoteRow) (id : String) (d : NotePatch) (now : String)
       (r : NoteRow),
      NoteRepository.updateHasFields d = true →
      NoteRepository.findById db id = some r →
      ∃ r1, NoteRepository.findById (NoteRepository.update db id d now) id
          = some r1
        ∧ (r1.updated_at = now
        ∧ r1.id = r.id ∧ r1.owner_id = r.owner_id ∧ r1.views = r.views
        ∧ r1.versions = r.versions ∧ r1.comments = r.comments
        ∧ r1.created_at = r.created_at
        ∧ (d.title = none → r1.title = r.title)
        ∧ (∀ v, d.title = some v → r1.title = v)
        ∧ (d.content = none → r1.content = r.content)
        ∧ (∀ v, d.content = some v → r1.content = v)
        ∧ (d.tags = none → r1.tags = r.tags)
        ∧ (∀ v, d.tags = some v → r1.tags = v)
        ∧ (d.pinned = none → r1.pinned = r.pinned)
        ∧ (∀ v, d.pinned = some v → r1.pinned = v)
        ∧ (d.favorite = none → r1.favorite = r.favorite)
        ∧ (∀ v, d.favorite = some v → r1.favorite = v)
        ∧ (d.folderId = none → r1.folder_id = r.folder_id)
        ∧ (∀ v, d.folderId = some v → r1.folder_id = v)
        ∧ (d.visibility = none → r1.visibility = r.visibility)
        ∧ (∀ v, d.visibility = some v → r1.visibility = v)
        ∧ (d.password = none → r1.password = r.password)
        ∧ (∀ v, d.password = some v → r1.password = some v)
        ∧ (d.shareUrl = none → r1.share_url = r.share_url)
        ∧ (∀ v, d.shareUrl = some v → r1.share_url = some v)
        ∧ (d.shortId = none → r1.short_id = r.short_id)
        ∧ (∀ v, d.shortId = some v → r1.short_id = some v)
        ∧ (d.expiresAt = none → r1.expires_at = r.expires_at)
        ∧ (∀ v, d.expiresAt = some v → r1.expires_at = some v)
        ∧ (d.isDeleted = none → r1.is_deleted = r.is_deleted)
        ∧ (∀ v, d.isDeleted = some v → r1.is_deleted = v)
        ∧ (d.deletedAt = none → r1.deleted_at = r.deleted_at)
        ∧ (∀ v, d.deletedAt = some v → r1.deleted_at = some v)
        ∧ (d.originalFolderId = none →
            r1.original_folder_id = r.original_folder_id)
        ∧ (∀ v, d.originalFolderId = some v → r1.original_folder_id = v)
        ∧ (d.originalPinned = none → r1.original_pinned = r.original_pinned)
        ∧ (∀ v, d.originalPinned = some v → r1.original_pinned = some v)
        ∧ (d.originalFavorite = none →
            r1.original_favorite = r.original_favorite)
        ∧ (∀ v, d.originalFavorite = some v → r1.original_favorite = some v)))
  ∧ (∀ (db : List FolderRow) (id : String) (d : FolderPatch) (now : String),
      FolderRepository.updateHasFields d = false →
      FolderRepository.update db id d now = db)
  ∧ (∀ (db : List FolderRow) (id : String) (d : FolderPatch) (now : String)
       (r : FolderRow),
      FolderRepository.updateHasFields d = true →
      FolderRepository.findById db id = some r →
      ∃ r1, FolderRepository.findById (FolderRepository.update db id d now) id
          = some r1
        ∧ (r1.updated_at = some now
        ∧ r1.id = r.id ∧ r1.owner_id = r.owner_id
        ∧ r1.created_at = r.created_at
        ∧ (d.name = none → r1.name = r.name)
        ∧ (∀ v, d.name = some v → r1.name = v)
        ∧ (d.color = none → r1.color = r.color)
        ∧ (∀ v, d.color = some v → r1.color = v)
        ∧ (d.isDeleted = none → r1.is_deleted = r.is_deleted)
        ∧ (∀ v, d.isDeleted = some v → r1.is_deleted = v)
        ∧ (d.deletedAt = none → r1.deleted_at = r.deleted_at)
        ∧ (∀ v, d.deletedAt = some v → r1.deleted_at = some v))) := by
  refine ⟨?_, ?_, ?_, ?_⟩
  · intro db id d now h
    simp [NoteRepository.update, h]
  · intro db id d now r h hfind
    have hfind2 : db.find? (fun a => a.id == id) = some r := hfind
    have hq0 := List.find?_some hfind2
    have hid : r.id = id := by simpa using hq0
    have hfound : NoteRepository.findById (NoteRepository.update db id d now) id
        = some (NoteRepository.applyUpdate d now r) := by
      simp only [NoteRepository.update, h, if_true]
      rw [NoteRepository.findById, find_map_pres _ _
        (fun a => by
          by_cases hc : (a.id == id) = true <;>
            simp [hc, NoteRepository.applyUpdate])]
      rw [hfind2]
      simp [hid]
    refine ⟨NoteRepository.applyUpdate d now r, hfound, ?_⟩
    repeat' apply And.intro
    all_goals intros
    all_goals simp_all [NoteRepository.applyUpdate]
  · intro db id d now h
    simp [FolderRepository.update, h]
  · intro db id d now r h hfind
    have hfind2 : db.find? (fun a => a.id == id) = some r := hfind
    have hq0 := List.find?_some hfind2
    have hid : r.id = id := by simpa using hq0
    have hfound : FolderRepository.findById
        (FolderRepository.update db id d now) id
        = some (FolderRepository.applyUpdate d now r) := by
      simp only [FolderRepository.update, h, if_true]
      rw [FolderRepository.findById, find_map_pres _ _
        (fun a => by
          by_cases hc : (a.id == id) = true <;>
            simp [hc, FolderRepository.applyUpdate])]
      rw [hfind2]
      simp [hid]
    refine ⟨FolderRepository.applyUpdate d now r, hfound, ?_⟩
    repeat' apply And.intro
    all_goals intros
    all_goals simp_all [FolderRepository.applyUpdate]

/-- C7 witness: updating a concrete note with only a new title touches
the title and the updated timestamp; updating with the empty patch
leaves the table untouched (note and folder). -/
theorem c7_update_frame_witness :
    (NoteRepository.update [baseNote] "n1" {} "t9" = [baseNote])
  ∧ ((NoteRepository.findById
        (NoteRepository.update [baseNote] "n1" { title := some "X" } "t9")
        "n1").map (fun s => (s.title, s.content, s.updated_at))
      = some ("X", "C", "t9")) := by
  constructor
  · exact c7_update_frame.1 [baseNote] "n1" {} "t9" (by decide)
  · obtain ⟨r1, hf, hrest⟩ := c7_update_frame.2.1 [baseNote] "n1"
      { title := some "X" } "t9" baseNote (by decide) (by decide)
    rw [hf]
    have ht := hrest.2.2.2.2.2.2.2.2.1 "X" rfl
    have hc := hrest.2.2.2.2.2.2.2.2.2.1 rfl
    simp [ht, hc, hrest.1, baseNote]

/-! ## C8 -/

/-- C8 counterexample: the full suspension invariant (timestamp and
reason present iff suspended) is not preserved.  `suspendUser` without a
reason leaves the account suspended with no stored reason, and the
insert branch of `upsert` given only `suspended := true` stores a
suspended account with no suspension timestamp at all. -/
theorem c8_suspension_invariant_cex :
    ((UserRepository.findById
        (UserRepository.suspendUser [baseUser] "u1" none "2024-01-02 03:04:05")
        "u1").map (fun r => (r.suspended, r.suspended_reason))
      = some (true, none))
  ∧ ((UserRepository.findById
        (UserRepository.upsert [] "u2" { suspended := some true }
          "2024-01-02 03:04:05") "u2").map
        (fun r => (r.suspended, r.suspended_at))
      = some (true, none)) := by
  refine ⟨by decide, by decide⟩

/-- C8 (amended): `update`, `suspendUser` and `unsuspendUser` preserve
the timestamp half of the invariant — after any of them every row's
suspension timestamp is present exactly when its suspended flag is true,
provided that correspondence held before — but the suspension reason is
not kept in correspondence (it may be absent while suspended or set
independently), and `upsert` preserves neither half (its insert and
update branches apply `suspended` and `suspendedAt` independently). -/
theorem c8_suspension_timestamp_invariant
    (db : List UserRow)
    (hdb : ∀ r ∈ db, r.suspended_at.isSome = r.suspended) :
    (∀ id d now, ∀ r ∈ UserRepository.update db id d now,
      r.suspended_at.isSome = r.suspended)
  ∧ (∀ id reason now, ∀ r ∈ UserRepository.suspendUser db id reason now,
      r.suspended_at.isSome = r.suspended)
  ∧ (∀ id now, ∀ r ∈ UserRepository.unsuspendUser db id now,
      r.suspended_at.isSome = r.suspended) := by
  refine ⟨?_, ?_, ?_⟩
  · intro id d now r hr
    rw [UserRepository.update] at hr
    by_cases h : UserRepository.updateHasFields d = true
    · rw [if_pos h] at hr
      obtain ⟨s, hs, hmap⟩ := List.mem_map.mp hr
      by_cases hc : (s.id == id) = true
      · rw [if_pos hc] at hmap
        subst hmap
        rcases hsus : d.suspended with - | b
        · simp [UserRepository.applyUpdate, hsus, hdb s hs]
        · cases b <;> simp [UserRepository.applyUpdate, hsus]
      · rw [if_neg hc] at hmap
        subst hmap
        exact hdb s hs
    · rw [if_neg h] at hr
      exact hdb r hr
  · intro id reason now r hr
    obtain ⟨s, hs, hmap⟩ := List.mem_map.mp hr
    by_cases hc : (s.id == id) = true
    · rw [if_pos hc] at hmap
      subst hmap
      simp
    · rw [if_neg hc] at hmap
      subst hmap
      exact hdb s hs
  · intro id now r hr
    obtain ⟨s, hs, hmap⟩ := List.mem_map.mp hr
    by_cases hc : (s.id == id) = true
    · rw [if_pos hc] at hmap
      subst hmap
      simp
    · rw [if_neg hc] at hmap
      subst hmap
      exact hdb s hs

/-- C8 witness: the amended theorem applied to a one-row table:
suspending the concrete user with a reason yields a row whose timestamp
presence matches its suspended flag. -/
theorem c8_suspension_timestamp_invariant_witness :
    ({ baseUser with
       suspended := true
       suspended_at := some "2024-01-02 03:04:05"
       suspended_reason := some "ban"
       updated_at := "2024-01-02 03:04:05" } : UserRow).suspended_at.isSome
      = ({ baseUser with
           suspended := true
           suspended_at := some "2024-01-02 03:04:05"
           suspended_reason := some "ban"
           updated_at := "2024-01-02 03:04:05" } : UserRow).suspended := by
  exact (c8_suspension_timestamp_invariant [baseUser] (by decide)).2.1
    "u1" (some "ban") "2024-01-02 03:04:05" _ (by decide)

/-! ## C9 -/

/-- C9: `healthCheck` is a total Boolean function of the pool behaviour
— every rejection of the acquisition or of the ping round trip is caught
— and it returns true exactly when the pool produces a connection whose
ping round trip succeeds, false in every other case. -/
theorem c9_healthCheck_total (env : PoolEnv) :
    (healthCheck env = true
      ↔ ∃ c, env.acquire = Except.ok c ∧ env.ping c = Except.ok ())
  ∧ (∀ e, env.acquire = Except.error e → healthCheck env = false)
  ∧ (∀ c e, env.acquire = Except.ok c → env.ping c = Except.error e →
      healthCheck env = false) := by
  refine ⟨?_, ?_, ?_⟩
  · constructor
    · intro h
      rcases hacq : env.acquire with e | c
      · simp [healthCheck, healthCheckAttempt, hacq] at h
      · rcases hping : env.ping c with e | u
        · simp [healthCheck, healthCheckAttempt, hacq, hping] at h
        · exact ⟨c, rfl, hping⟩
    · rintro ⟨c, hacq, hping⟩
      simp [healthCheck, healthCheckAttempt, hacq, hping]
  · intro e hacq
    simp [healthCheck, healthCheckAttempt, hacq]
  · intro c e hacq hping
    simp [healthCheck, healthCheckAttempt, hacq, hping]

/-- C9 witness: the characterisation applied to a concrete pool
behaviour whose acquisition always fails: the probe reports false
without raising. -/
theorem c9_healthCheck_total_witness :
    healthCheck
        { acquire := Except.error { message := "pool exhausted" },
          ping := fun _ => Except.ok () }
      = false := by
  exact (c9_healthCheck_total _).2.1 { message := "pool exhausted" } rfl

/-! ## C10 -/

/-- C10: `migrate` never propagates a store failure: whatever the
outcome of each per-table CREATE statement, every raised error is caught
inside the loop (logged as a warning unless it is the table-exists
code), and the call completes normally — the number of warning logs
being the number of statements failing with a code other than
ER_TABLE_EXISTS_ERROR. -/
theorem c10_migrate_never_propagates (exec : String → Except SqlError Unit) :
    migrate exec
      = Except.ok ((migrateTables.filter (fun s =>
          match exec s with
          | Except.ok _ => false
          | Except.error e => !(e.code == "ER_TABLE_EXISTS_ERROR"))).length) := by
  rw [migrate]
  induction migrateTables with
  | nil => rfl
  | cons sql rest ih =>
    rcases hs : exec sql with e | u
    · rcases hc : e.code == "ER_TABLE_EXISTS_ERROR"
      · rw [migrateLoop]
        simp [hs, hc, ih, List.filter_cons, Nat.add_comm]
      · rw [migrateLoop]
        simp [hs, hc, ih, List.filter_cons]
    · rw [migrateLoop]
      simp [hs, ih, List.filter_cons]
